import Mathlib

/-!
Verification of the WiredTiger snapshot manager
(`src/mongo/db/storage/wiredtiger/wiredtiger_snapshot_manager.cpp`).

The manager tracks the majority-committed snapshot id, the oldest kept
timestamp, and an owned engine session handle, all guarded by one mutex.
We embed the (sequential) behaviour of each public operation as a pure
function on an explicit state, recording the configuration strings sent
to the engine as a list of emitted engine calls.  `SnapshotName` and
`Timestamp` are 64-bit values in the source; no arithmetic other than
comparison, `max` and rendering is ever performed on them, so they are
embedded as `Nat`.
-/

/-- The hexadecimal rendering `%llx` used by `snprintf` in the source:
lowercase digits, no leading-zero padding, `"0"` for zero. -/
def toHex (n : Nat) : String := String.mk (Nat.toDigits 16 n)

/-- A call made to the storage engine, with its configuration string.
`setTimestamp` is `_conn->set_timestamp`, `snapshotAdmin` is
`_session->snapshot` on the manager's own session, `beginTransaction` is
`session->begin_transaction` on a caller-provided session. -/
inductive EngineCall where
  | setTimestamp (config : String)
  | snapshotAdmin (config : String)
  | closeSession
  | beginTransaction (config : String)
deriving Repr, DecidableEq

/-- The distinguishable failure modes of the manager's operations.
`invariantViolation` is the fatal `invariant(...)` path,
`readConcernMajorityNotAvailableYet` is the retryable `uassert` error code,
`nullSessionUse` marks a dereference of the cleared `_session` handle. -/
inductive WTError where
  | invariantViolation
  | readConcernMajorityNotAvailableYet
  | nullSessionUse
deriving Repr, DecidableEq

/-- The mutex-guarded state of `WiredTigerSnapshotManager`:
`_committedSnapshot : boost::optional<SnapshotName>`,
`_oldestKeptTimestamp : Timestamp` (zero-initialised), and whether the
owned `_session` handle is still non-null. -/
structure WiredTigerSnapshotManager where
  committedSnapshot : Option Nat
  oldestKeptTimestamp : Nat
  session : Bool
deriving Repr, DecidableEq

/-- The freshly constructed manager: no committed snapshot, zero oldest
kept timestamp, a live session. -/
def initManager : WiredTigerSnapshotManager :=
  { committedSnapshot := none, oldestKeptTimestamp := 0, session := true }

/-- Result of one mutating operation: the state after the call, the engine
calls it issued, and the error it raised, if any. -/
structure StepResult where
  state : WiredTigerSnapshotManager
  calls : List EngineCall
  err : Option WTError
deriving Repr, DecidableEq

/-- The `invariant(!_committedSnapshot || *_committedSnapshot <= name)`
condition of `setCommittedSnapshot`. -/
def snapshotPreconditionHolds (committed : Option Nat) (name : Nat) : Bool :=
  match committed with
  | none => true
  | some c => decide (c ≤ name)

/-- `WiredTigerSnapshotManager::setCommittedSnapshot(name, ts)`: checks the
monotonicity invariant, then sets `_committedSnapshot := name`, pushes
`oldest_timestamp=<hex ts>` to the engine connection, and sets
`_oldestKeptTimestamp := ts`.  On the fatal invariant path nothing has been
mutated yet. -/
def setCommittedSnapshot (m : WiredTigerSnapshotManager) (name ts : Nat) : StepResult :=
  if snapshotPreconditionHolds m.committedSnapshot name then
    { state := { m with committedSnapshot := some name, oldestKeptTimestamp := ts }
      calls := [EngineCall.setTimestamp ("oldest_timestamp=" ++ toHex ts)]
      err := none }
  else
    { state := m, calls := [], err := some WTError.invariantViolation }

/-- `WiredTigerSnapshotManager::cleanupUnneededSnapshots()`: returns at once
when `_committedSnapshot` is empty; otherwise issues
`drop=(before=<decimal id>)` on `_session` (dereferenced with no null
check). -/
def cleanupUnneededSnapshots (m : WiredTigerSnapshotManager) : StepResult :=
  match m.committedSnapshot with
  | none => { state := m, calls := [], err := none }
  | some c =>
    if m.session then
      { state := m
        calls := [EngineCall.snapshotAdmin ("drop=(before=" ++ toString c ++ ")")]
        err := none }
    else
      { state := m, calls := [], err := some WTError.nullSessionUse }

/-- `WiredTigerSnapshotManager::dropAllSnapshots()`: clears
`_committedSnapshot`, then issues `drop=(all)` on `_session` (dereferenced
with no null check). -/
def dropAllSnapshots (m : WiredTigerSnapshotManager) : StepResult :=
  let cleared := { m with committedSnapshot := none }
  if m.session then
    { state := cleared, calls := [EngineCall.snapshotAdmin "drop=(all)"], err := none }
  else
    { state := cleared, calls := [], err := some WTError.nullSessionUse }

/-- `WiredTigerSnapshotManager::shutdown()`: no-op when `_session` is
already null; otherwise closes the session once and clears the handle. -/
def shutdown (m : WiredTigerSnapshotManager) : StepResult :=
  if m.session then
    { state := { m with session := false }, calls := [EngineCall.closeSession], err := none }
  else
    { state := m, calls := [], err := none }

/-- `WiredTigerSnapshotManager::getMinSnapshotForNextCommittedRead()`:
read-only accessor of `_committedSnapshot`. -/
def getMinSnapshotForNextCommittedRead (m : WiredTigerSnapshotManager) : Option Nat :=
  m.committedSnapshot

/-- `WiredTigerSnapshotManager::beginTransactionOnCommittedSnapshot(session)`:
`uassert(ReadConcernMajorityNotAvailableYet, ..., _committedSnapshot)`, then
begins a transaction with `snapshot=<decimal id>` on the caller's session
and returns the id used.  Const method: the state is not mutated. -/
def beginTransactionOnCommittedSnapshot (m : WiredTigerSnapshotManager) :
    Except WTError (Nat × List EngineCall) :=
  match m.committedSnapshot with
  | none => Except.error WTError.readConcernMajorityNotAvailableYet
  | some c => Except.ok (c, [EngineCall.beginTransaction ("snapshot=" ++ toString c)])

/-- `WiredTigerSnapshotManager::beginTransactionOnOplog(oplogManager, session)`:
`allCommittedTimestamp` is fetched from the oplog manager before the lock;
under the lock the read timestamp is
`max(allCommittedTimestamp, _oldestKeptTimestamp)` and the transaction is
begun with `read_timestamp=<hex>`.  Const method: the state is not
mutated. -/
def beginTransactionOnOplog (m : WiredTigerSnapshotManager)
    (allCommittedTimestamp : Nat) : List EngineCall :=
  [EngineCall.beginTransaction
    ("read_timestamp=" ++ toHex (max allCommittedTimestamp m.oldestKeptTimestamp))]

/-- The ids of the accepted calls when a list of `(id, ts)` arguments is fed
to `setCommittedSnapshot` in order (the fatal path leaves the state
untouched, so later calls still run against the pre-violation state). -/
def acceptedIds : WiredTigerSnapshotManager → List (Nat × Nat) → List Nat
  | _, [] => []
  | m, (id, ts) :: rest =>
    let r := setCommittedSnapshot m id ts
    match r.err with
    | none => id :: acceptedIds r.state rest
    | some _ => acceptedIds r.state rest

theorem setCommittedSnapshot_accepted (m : WiredTigerSnapshotManager) (id ts : Nat)
    (h : snapshotPreconditionHolds m.committedSnapshot id = true) :
    setCommittedSnapshot m id ts =
      { state := { m with committedSnapshot := some id, oldestKeptTimestamp := ts }
        calls := [EngineCall.setTimestamp ("oldest_timestamp=" ++ toHex ts)]
        err := none } := by
  simp [setCommittedSnapshot, h]

theorem setCommittedSnapshot_rejected (m : WiredTigerSnapshotManager) (id ts : Nat)
    (h : snapshotPreconditionHolds m.committedSnapshot id = false) :
    setCommittedSnapshot m id ts =
      { state := m, calls := [], err := some WTError.invariantViolation } := by
  simp [setCommittedSnapshot, h]

theorem acceptedIds_chain_of_committed (calls : List (Nat × Nat)) :
    ∀ (m : WiredTigerSnapshotManager) (c : Nat),
      m.committedSnapshot = some c → List.Chain (· ≤ ·) c (acceptedIds m calls) := by
  induction calls with
  | nil => intro m c _; exact List.Chain.nil
  | cons p rest ih =>
    intro m c h
    obtain ⟨id, ts⟩ := p
    by_cases hle : c ≤ id
    · have hpre : snapshotPreconditionHolds m.committedSnapshot id = true := by
        simp [snapshotPreconditionHolds, h, hle]
      have hstep : acceptedIds m ((id, ts) :: rest) =
          id :: acceptedIds
            { m with committedSnapshot := some id, oldestKeptTimestamp := ts } rest := by
        simp [acceptedIds, setCommittedSnapshot_accepted m id ts hpre]
      rw [hstep]
      exact List.Chain.cons hle (ih _ id rfl)
    · have hpre : snapshotPreconditionHolds m.committedSnapshot id = false := by
        simp [snapshotPreconditionHolds, h, hle]
      have hstep : acceptedIds m ((id, ts) :: rest) = acceptedIds m rest := by
        simp [acceptedIds, setCommittedSnapshot_rejected m id ts hpre]
      rw [hstep]
      exact ih m c h

theorem acceptedIds_chain (calls : List (Nat × Nat)) :
    ∀ m : WiredTigerSnapshotManager, List.Chain' (· ≤ ·) (acceptedIds m calls) := by
  induction calls with
  | nil => intro m; simp [acceptedIds]
  | cons p rest ih =>
    intro m
    obtain ⟨id, ts⟩ := p
    by_cases hpre : snapshotPreconditionHolds m.committedSnapshot id = true
    · have hstep : acceptedIds m ((id, ts) :: rest) =
          id :: acceptedIds
            { m with committedSnapshot := some id, oldestKeptTimestamp := ts } rest := by
        simp [acceptedIds, setCommittedSnapshot_accepted m id ts hpre]
      rw [hstep]
      exact acceptedIds_chain_of_committed rest _ id rfl
    · have hpre' : snapshotPreconditionHolds m.committedSnapshot id = false := by
        simpa using hpre
      have hstep : acceptedIds m ((id, ts) :: rest) = acceptedIds m rest := by
        simp [acceptedIds, setCommittedSnapshot_rejected m id ts hpre']
      rw [hstep]
      exact ih m

/-- Claim C1: across any sequence of `setCommittedSnapshot (id, ts)` calls the
accepted ids are non-decreasing; a call is accepted exactly when there is no
committed snapshot or the committed snapshot is `≤` the new id; a call with an
id strictly below the committed snapshot takes the fatal invariant path and
leaves the state unchanged. -/
theorem setCommittedSnapshot_monotonic (m : WiredTigerSnapshotManager)
    (calls : List (Nat × Nat)) (id ts : Nat) :
    List.Chain' (· ≤ ·) (acceptedIds m calls)
    ∧ ((setCommittedSnapshot m id ts).err = none ↔
        m.committedSnapshot = none ∨ ∃ c, m.committedSnapshot = some c ∧ c ≤ id)
    ∧ (∀ c, m.committedSnapshot = some c → id < c →
        setCommittedSnapshot m id ts =
          { state := m, calls := [], err := some WTError.invariantViolation }) := by
  refine ⟨acceptedIds_chain calls m, ?_, ?_⟩
  · cases hc : m.committedSnapshot with
    | none => simp [setCommittedSnapshot, snapshotPreconditionHolds, hc]
    | some c =>
      by_cases hle : c ≤ id <;>
        simp [setCommittedSnapshot, snapshotPreconditionHolds, hc, hle]
  · intro c hc hlt
    exact setCommittedSnapshot_rejected m id ts
      (by simp [snapshotPreconditionHolds, hc, Nat.not_le_of_lt hlt])

theorem setCommittedSnapshot_monotonic_witness :
    setCommittedSnapshot ⟨some 10, 10, true⟩ 5 5 =
      { state := ⟨some 10, 10, true⟩, calls := []
        err := some WTError.invariantViolation } :=
  (setCommittedSnapshot_monotonic ⟨some 10, 10, true⟩ [] 5 5).2.2 10 rfl (by decide)

/-- Claim C2: `beginTransactionOnOplog` always begins the transaction at
`max(allCommittedTs, oldestKeptTimestamp)`; with oldest kept 100 and
all-committed 50 it selects 100, and with oldest kept 50 and all-committed
100 it also selects 100 (rendered `read_timestamp=64` in hex). -/
theorem beginTransactionOnOplog_max (m : WiredTigerSnapshotManager)
    (allCommittedTs : Nat) :
    beginTransactionOnOplog m allCommittedTs =
      [EngineCall.beginTransaction
        ("read_timestamp=" ++ toHex (max allCommittedTs m.oldestKeptTimestamp))]
    ∧ beginTransactionOnOplog ⟨none, 100, true⟩ 50 =
        [EngineCall.beginTransaction ("read_timestamp=" ++ toHex 100)]
    ∧ beginTransactionOnOplog ⟨none, 50, true⟩ 100 =
        [EngineCall.beginTransaction ("read_timestamp=" ++ toHex 100)] :=
  ⟨rfl, by decide, by decide⟩

/-- Claim C3: an accepted `setCommittedSnapshot (id, ts)` sets
`committedSnapshot := id` and `oldestKeptTimestamp := ts` and pushes
`oldest_timestamp=<ts>` to the engine in the same critical section; the
rejected path and every other state-returning operation leave
`oldestKeptTimestamp` unchanged, so it always equals the `ts` of the last
accepted call. -/
theorem setCommittedSnapshot_effect (m : WiredTigerSnapshotManager) (id ts : Nat) :
    ((setCommittedSnapshot m id ts).err = none →
      (setCommittedSnapshot m id ts).state.committedSnapshot = some id
      ∧ (setCommittedSnapshot m id ts).state.oldestKeptTimestamp = ts
      ∧ (setCommittedSnapshot m id ts).calls =
          [EngineCall.setTimestamp ("oldest_timestamp=" ++ toHex ts)])
    ∧ ((setCommittedSnapshot m id ts).err ≠ none →
        (setCommittedSnapshot m id ts).state = m)
    ∧ (cleanupUnneededSnapshots m).state = m
    ∧ (dropAllSnapshots m).state.oldestKeptTimestamp = m.oldestKeptTimestamp
    ∧ (shutdown m).state.oldestKeptTimestamp = m.oldestKeptTimestamp := by
  refine ⟨?_, ?_, ?_, ?_, ?_⟩
  · intro h
    by_cases hpre : snapshotPreconditionHolds m.committedSnapshot id = true
    · simp [setCommittedSnapshot_accepted m id ts hpre]
    · rw [setCommittedSnapshot_rejected m id ts (by simpa using hpre)] at h
      simp at h
  · intro h
    by_cases hpre : snapshotPreconditionHolds m.committedSnapshot id = true
    · rw [setCommittedSnapshot_accepted m id ts hpre] at h
      simp at h
    · simp [setCommittedSnapshot_rejected m id ts (by simpa using hpre)]
  · cases hc : m.committedSnapshot <;>
      by_cases hs : m.session = true <;> simp [cleanupUnneededSnapshots, hc, hs]
  · by_cases hs : m.session = true <;> simp [dropAllSnapshots, hs]
  · by_cases hs : m.session = true <;> simp [shutdown, hs]

theorem setCommittedSnapshot_effect_witness :
    (setCommittedSnapshot initManager 4 9).state.committedSnapshot = some 4
    ∧ (setCommittedSnapshot initManager 4 9).state.oldestKeptTimestamp = 9
    ∧ (setCommittedSnapshot initManager 4 9).calls =
        [EngineCall.setTimestamp ("oldest_timestamp=" ++ toHex 9)] :=
  (setCommittedSnapshot_effect initManager 4 9).1 (by decide)

/-- Claim C4: `beginTransactionOnCommittedSnapshot` fails with the retryable
`ReadConcernMajorityNotAvailableYet` error exactly when no committed snapshot
is set; otherwise it begins a transaction pinned to the committed snapshot
and returns the id it used. -/
theorem beginTransactionOnCommittedSnapshot_spec (m : WiredTigerSnapshotManager) :
    (beginTransactionOnCommittedSnapshot m =
        Except.error WTError.readConcernMajorityNotAvailableYet ↔
      m.committedSnapshot = none)
    ∧ (∀ c, m.committedSnapshot = some c →
        beginTransactionOnCommittedSnapshot m =
          Except.ok (c, [EngineCall.beginTransaction ("snapshot=" ++ toString c)])) := by
  cases hc : m.committedSnapshot <;>
    simp [beginTransactionOnCommittedSnapshot, hc]

theorem beginTransactionOnCommittedSnapshot_spec_witness :
    beginTransactionOnCommittedSnapshot ⟨some 7, 0, true⟩ =
      Except.ok (7, [EngineCall.beginTransaction ("snapshot=" ++ toString 7)]) :=
  (beginTransactionOnCommittedSnapshot_spec ⟨some 7, 0, true⟩).2 7 rfl

/-- Claim C5 counterexample: the `snapshot=` value sent by
`beginTransactionOnCommittedSnapshot` is decimal, not hexadecimal (id 255 is
rendered `snapshot=255`, not `snapshot=ff`), and the `%llx` rendering of
`oldest_timestamp` is not fixed-width (ts 5 yields a 1-digit value, ts 256 a
3-digit value). -/
theorem timestampConfigRendering_counterexample :
    beginTransactionOnCommittedSnapshot ⟨some 255, 0, true⟩ =
      Except.ok (255, [EngineCall.beginTransaction "snapshot=255"])
    ∧ "snapshot=255" ≠ "snapshot=" ++ toHex 255
    ∧ (setCommittedSnapshot ⟨none, 0, true⟩ 1 5).calls =
        [EngineCall.setTimestamp "oldest_timestamp=5"]
    ∧ (setCommittedSnapshot ⟨none, 0, true⟩ 1 256).calls =
        [EngineCall.setTimestamp "oldest_timestamp=100"]
    ∧ "oldest_timestamp=5".length ≠ "oldest_timestamp=100".length :=
  ⟨rfl, by decide, by decide, by decide, by decide⟩

/-- Claim C5 (amended): the `oldest_timestamp` and `read_timestamp`
configuration values are rendered by `%llx` as lowercase hexadecimal without
fixed-width padding, while the `snapshot` value sent by
`beginTransactionOnCommittedSnapshot` is rendered in decimal. -/
theorem timestampConfigRendering (m : WiredTigerSnapshotManager) (id ts a : Nat) :
    ((setCommittedSnapshot m id ts).err = none →
      (setCommittedSnapshot m id ts).calls =
        [EngineCall.setTimestamp ("oldest_timestamp=" ++ toHex ts)])
    ∧ beginTransactionOnOplog m a =
        [EngineCall.beginTransaction
          ("read_timestamp=" ++ toHex (max a m.oldestKeptTimestamp))]
    ∧ (∀ c, m.committedSnapshot = some c →
        beginTransactionOnCommittedSnapshot m =
          Except.ok (c, [EngineCall.beginTransaction ("snapshot=" ++ toString c)]))
    ∧ toHex 255 = "ff" ∧ toString (255 : Nat) = "255"
    ∧ (toHex 5).length = 1 ∧ (toHex 256).length = 3 := by
  refine ⟨?_, rfl, ?_, by decide, by decide, by decide, by decide⟩
  · intro h
    by_cases hpre : snapshotPreconditionHolds m.committedSnapshot id = true
    · simp [setCommittedSnapshot_accepted m id ts hpre]
    · rw [setCommittedSnapshot_rejected m id ts (by simpa using hpre)] at h
      simp at h
  · intro c hc
    simp [beginTransactionOnCommittedSnapshot, hc]

theorem timestampConfigRendering_witness :
    (setCommittedSnapshot initManager 2 255).calls =
      [EngineCall.setTimestamp ("oldest_timestamp=" ++ toHex 255)] :=
  (timestampConfigRendering initManager 2 255 0).1 (by decide)

/-- Claim C6: `cleanupUnneededSnapshots` issues no engine call when no
committed snapshot is established; otherwise it asks the engine to drop the
pinned snapshots strictly older than the committed one via
`drop=(before=<id>)`. -/
theorem cleanupUnneededSnapshots_spec (m : WiredTigerSnapshotManager) :
    (m.committedSnapshot = none →
      cleanupUnneededSnapshots m = { state := m, calls := [], err := none })
    ∧ (∀ c, m.committedSnapshot = some c → m.session = true →
        cleanupUnneededSnapshots m =
          { state := m
            calls := [EngineCall.snapshotAdmin ("drop=(before=" ++ toString c ++ ")")]
            err := none }) := by
  constructor
  · intro h; simp [cleanupUnneededSnapshots, h]
  · intro c hc hs; simp [cleanupUnneededSnapshots, hc, hs]

theorem cleanupUnneededSnapshots_spec_witness :
    cleanupUnneededSnapshots ⟨some 9, 0, true⟩ =
      { state := ⟨some 9, 0, true⟩
        calls := [EngineCall.snapshotAdmin ("drop=(before=" ++ toString 9 ++ ")")]
        err := none } :=
  (cleanupUnneededSnapshots_spec ⟨some 9, 0, true⟩).2 9 rfl rfl

/-- Claim C7: after `dropAllSnapshots` the committed snapshot reads back
empty, the engine was told `drop=(all)` unconditionally, and any subsequent
`setCommittedSnapshot` — even with an id below the pre-reset committed
snapshot — is accepted without tripping the monotonicity invariant. -/
theorem dropAllSnapshots_reset (m : WiredTigerSnapshotManager) (id ts : Nat)
    (h : m.session = true) :
    getMinSnapshotForNextCommittedRead (dropAllSnapshots m).state = none
    ∧ (dropAllSnapshots m).calls = [EngineCall.snapshotAdmin "drop=(all)"]
    ∧ (dropAllSnapshots m).err = none
    ∧ (setCommittedSnapshot (dropAllSnapshots m).state id ts).err = none := by
  simp [dropAllSnapshots, getMinSnapshotForNextCommittedRead, h,
        setCommittedSnapshot, snapshotPreconditionHolds]

theorem dropAllSnapshots_reset_witness :
    getMinSnapshotForNextCommittedRead
        (dropAllSnapshots ⟨some 10, 10, true⟩).state = none
    ∧ (setCommittedSnapshot (dropAllSnapshots ⟨some 10, 10, true⟩).state 5 5).err =
        none :=
  ⟨(dropAllSnapshots_reset ⟨some 10, 10, true⟩ 5 5 rfl).1,
   (dropAllSnapshots_reset ⟨some 10, 10, true⟩ 5 5 rfl).2.2.2⟩

/-- Claim C8: the first `shutdown` closes the session exactly once and clears
the handle; a second `shutdown` on the resulting state is a no-op, issuing no
engine call and no error. -/
theorem shutdown_idempotent (m : WiredTigerSnapshotManager) (h : m.session = true) :
    shutdown m =
      { state := { m with session := false }
        calls := [EngineCall.closeSession], err := none }
    ∧ shutdown (shutdown m).state =
        { state := (shutdown m).state, calls := [], err := none } := by
  simp [shutdown, h]

theorem shutdown_idempotent_witness :
    shutdown (shutdown initManager).state =
      { state := (shutdown initManager).state, calls := [], err := none } :=
  (shutdown_idempotent initManager rfl).2

/-- Claim C9: `dropAllSnapshots` clears only the committed snapshot and
leaves `oldestKeptTimestamp` untouched, so `beginTransactionOnOplog` after a
full reset still takes the maximum against the retention floor established
before the reset. -/
theorem dropAllSnapshots_frame (m : WiredTigerSnapshotManager) (a : Nat) :
    (dropAllSnapshots m).state.oldestKeptTimestamp = m.oldestKeptTimestamp
    ∧ (dropAllSnapshots m).state.session = m.session
    ∧ beginTransactionOnOplog (dropAllSnapshots m).state a =
        [EngineCall.beginTransaction
          ("read_timestamp=" ++ toHex (max a m.oldestKeptTimestamp))] := by
  by_cases h : m.session = true <;>
    simp [dropAllSnapshots, beginTransactionOnOplog, h]

/-- Claim C10: only `shutdown` checks for an already-cleared session: after a
`shutdown`, `cleanupUnneededSnapshots` (with a committed snapshot set) and
`dropAllSnapshots` both dereference the null session handle, reaching the
null-session error branch, while a repeated `shutdown` is a guarded no-op. -/
theorem nullSessionUse_after_shutdown (m : WiredTigerSnapshotManager) (c : Nat) :
    (shutdown m).state.session = false
    ∧ ((shutdown m).state.committedSnapshot = some c →
        (cleanupUnneededSnapshots (shutdown m).state).err =
          some WTError.nullSessionUse)
    ∧ (dropAllSnapshots (shutdown m).state).err = some WTError.nullSessionUse
    ∧ shutdown (shutdown m).state =
        { state := (shutdown m).state, calls := [], err := none } := by
  by_cases h : m.session = true <;>
    · refine ⟨by simp [shutdown, h], ?_, by simp [shutdown, dropAllSnapshots, h], ?_⟩
      · intro hc
        simp [shutdown, h] at hc
        simp [shutdown, cleanupUnneededSnapshots, h, hc]
      · simp [shutdown, h]

theorem nullSessionUse_after_shutdown_witness :
    (cleanupUnneededSnapshots (shutdown ⟨some 7, 3, true⟩).state).err =
      some WTError.nullSessionUse :=
  (nullSessionUse_after_shutdown ⟨some 7, 3, true⟩ 7).2.1 rfl
